import Mathlib

/-!
Shallow embedding of `src/main.py` — an all-in-one Telegram + web AI bot.

The Python program is a message router: it classifies each inbound message
(command, photo, `img:<filename> <question>` sentinel, or plain text) and
dispatches to one capability client (OpenRouter chat completion, Wikipedia,
OpenWeather, image/meme URL builders, gTTS, FPDF) or to the JSON-file note
store, then sends the reply back.

Modelling conventions:
- Strings are Lean `String`; character-level parsing (Python `str.strip`,
  `str.split(maxsplit=1)`, `str.partition`, `str.startswith`) is embedded as
  structural recursion over `List Char`.
- Network and filesystem responses are oracle parameters: the embedding of a
  handler takes the parsed response the external service would return
  (`HttpResult`, `WeatherResp`, `Option String` for TTS/PDF paths) and
  computes the handler's observable output from it.
- A handler's observable output is a pair (list of outbound actions sent to
  the originating channel, list of external effects performed).  Effects
  record capability-client invocations and note-store mutations; reads of the
  notes file are modelled by passing the parsed notes map as an argument.
- The notes file `data/notes.json` is modelled as the parsed map itself, an
  association list from user id to the list of saved note strings.
-/

namespace Bot

/-- Python `str` whitespace as used by `strip`/`split` (restricted to the
ASCII whitespace characters, which is what all inputs here contain). -/
def isPySpace (c : Char) : Bool := c.isWhitespace

/-- Python `str.strip()` on a character list: drop leading and trailing
whitespace. -/
def stripL (cs : List Char) : List Char :=
  ((cs.dropWhile isPySpace).reverse.dropWhile isPySpace).reverse

/-- Python `str.strip()`. -/
def pyStrip (s : String) : String := String.mk (stripL s.toList)

/-- Python `str.startswith` on character lists. -/
def startsWithL : List Char → List Char → Bool
  | _, [] => true
  | [], _ :: _ => false
  | c :: cs, d :: ds => if c = d then startsWithL cs ds else false

/-- Python `str.startswith`. -/
def pyStartsWith (s pat : String) : Bool := startsWithL s.toList pat.toList

/-- Python `str.split(maxsplit=1)` restricted to at most one split: returns
the first whitespace-free token and the remainder after the separating
whitespace run (empty when nothing follows, in which case Python's result
list has no second element and the callers below substitute `""`). -/
def splitTok : List Char → List Char × List Char
  | [] => ([], [])
  | c :: cs =>
    if isPySpace c then ([], cs.dropWhile isPySpace)
    else (c :: (splitTok cs).1, (splitTok cs).2)

/-- Substring containment, as in Python's `in` operator on strings. -/
def strContains (s sub : String) : Prop := sub.toList <:+: s.toList

/-- Python `str.partition(" ")`: the part before the first space and the part
after it, the latter verbatim. -/
def partitionSpace : List Char → List Char × List Char
  | [] => ([], [])
  | c :: cs =>
    if c = ' ' then ([], cs)
    else (c :: (partitionSpace cs).1, (partitionSpace cs).2)

/-- Python `str.rstrip("/")`: drop trailing slashes. -/
def rstripSlash (s : String) : String :=
  String.mk (s.toList.reverse.dropWhile (fun c => c = '/')).reverse

/-- Hexadecimal digit (uppercase, as produced by `urllib.parse.quote_plus`). -/
def hexDigit (n : Nat) : Char :=
  if n < 10 then Char.ofNat (48 + n) else Char.ofNat (55 + n)

/-- Percent-encoding of one byte. -/
def percentByte (n : Nat) : List Char :=
  ['%', hexDigit (n / 16 % 16), hexDigit (n % 16)]

/-- UTF-8 bytes of a code point. -/
def utf8Bytes (n : Nat) : List Nat :=
  if n < 128 then [n]
  else if n < 2048 then [192 + n / 64, 128 + n % 64]
  else if n < 65536 then [224 + n / 4096, 128 + n / 64 % 64, 128 + n % 64]
  else [240 + n / 262144, 128 + n / 4096 % 64, 128 + n / 64 % 64, 128 + n % 64]

/-- Characters `urllib.parse.quote_plus` leaves unescaped. -/
def isSafeChar (c : Char) : Bool :=
  c.isAlphanum || c = '_' || c = '.' || c = '-' || c = '~'

/-- `urllib.parse.quote_plus`: space becomes `+`, safe characters pass
through, everything else is percent-encoded per UTF-8 byte. -/
def quote_plus (s : String) : String :=
  String.mk (s.toList.flatMap fun c =>
    if c = ' ' then ['+']
    else if isSafeChar c then [c]
    else (utf8Bytes c.toNat).flatMap percentByte)

/-- `make_public_file_url(filename, host_url)` from `src/main.py`: prefer the
`RAILWAY_BASE_URL` environment value, else the request host URL, else fall
back to a bare relative `/files/<filename>` path (unquoted, as in the code). -/
def make_public_file_url (filename host_url railway : String) : String :=
  let base := if railway ≠ "" then rstripSlash railway
    else if host_url ≠ "" then rstripSlash host_url else ""
  if base = "" then "/files/" ++ filename
  else base ++ "/files/" ++ quote_plus filename

/-- The `message.content` object of one OpenRouter chat-completion choice. -/
structure ChatMessage where
  content : String
  deriving DecidableEq

/-- One element of the `choices` array in the chat-completion response. -/
structure ChatChoice where
  message : ChatMessage
  deriving DecidableEq

/-- Outcome of the HTTP POST inside `call_openrouter_ai_sync`: either a 2xx
response whose JSON body parsed to the given `choices` array, or an exception
(network error, timeout, non-2xx raised by `raise_for_status`, or a JSON
parse error) carrying the exception text. -/
inductive HttpResult where
  | success (choices : List ChatChoice)
  | failure (err : String)
  deriving DecidableEq

/-- `call_openrouter_ai_sync(prompt)` from `src/main.py`, as a function of the
HTTP outcome: on success it returns `data["choices"][0]["message"]["content"].strip()`;
any exception (including the `IndexError` raised by `[0]` when `choices` is
empty) is caught and rendered as an `AI error` string. -/
def call_openrouter_ai_sync (resp : HttpResult) : String :=
  match resp with
  | .failure e => "⚠️ AI error: " ++ e
  | .success choices =>
    match choices with
    | [] => "⚠️ AI error: " ++ "list index out of range"
    | c :: _ => pyStrip c.message.content

/-- An outbound action sent back through the originating channel: one of the
`message.reply*` primitives of the Telegram front end (the web front end only
ever uses a text reply). -/
inductive Action where
  | replyText (s : String)
  | replyPhoto (url caption : String)
  | replyAudio (path : String)
  | replyDocument (path : String)
  deriving DecidableEq

/-- An external effect performed while handling one message: a capability
client invocation or a note-store mutation (a `save_notes` rewrite of the
notes file, tagged with the mutating user). -/
inductive Effect where
  | aiCall (prompt : String)
  | wikiCall (q : String)
  | weatherCall (city : String)
  | ttsCall (text : String)
  | pdfCall (text : String)
  | noteWrite (user : String)
  deriving DecidableEq

/-- The parsed content of `data/notes.json`: a map from user id (Python keys
are `str(message.from_user.id)`) to the list of saved note strings. -/
abbrev NotesMap := List (String × List String)

/-- Dictionary lookup `notes.get(user, [])`. -/
def lookupNotes : NotesMap → String → List String
  | [], _ => []
  | (k, vs) :: rest, u => if k = u then vs else lookupNotes rest u

/-- Key-membership test `user in notes`. -/
def hasUser : NotesMap → String → Bool
  | [], _ => false
  | (k, _) :: rest, u => if k = u then true else hasUser rest u

/-- Replace the value stored under an existing key, keeping its position. -/
def updateNotes : NotesMap → String → List String → NotesMap
  | [], _, _ => []
  | (k, vs) :: rest, u, v =>
    if k = u then (u, v) :: rest else (k, vs) :: updateNotes rest u v

/-- Python dictionary assignment `notes[user] = v` (also the combined effect
of `notes.setdefault(user, []).append(t)` with `v` the appended list). -/
def setNotes (m : NotesMap) (u : String) (v : List String) : NotesMap :=
  if hasUser m u then updateNotes m u v else m ++ [(u, v)]

/-- The numbered display lines `f"{i+1}. {t}"` built by `/notes show`. -/
def numberedLines (items : List String) : List String :=
  items.enum.map fun p => toString (p.1 + 1) ++ ". " ++ p.2

-- ---------- Telegram command handlers ----------
-- Each `cmd_*` embeds the aiogram handler of the same name; `args` is the
-- result of `message.get_args()` and the oracle parameters carry the parsed
-- response of the external service the handler consults.

/-- `cmd_start` from `src/main.py`. -/
def cmd_start : List Action × List Effect :=
  ([.replyText ("👋 Hello! I\x27m Aditya Singh\x27s All-in-One AI Bot.\nJust ask anything or use menu commands (three dots)."), ], [])

/-- `cmd_ai` from `src/main.py`: usage hint on empty argument, otherwise a
progress notice followed by the chat-completion result. -/
def cmd_ai (args : String) (ai : HttpResult) : List Action × List Effect :=
  if args = "" then ([.replyText "Usage: /ai <your question>"], [])
  else ([.replyText "⏳ Thinking...", .replyText (call_openrouter_ai_sync ai)],
        [.aiCall args])

/-- `cmd_wiki` from `src/main.py`; the oracle is `some s` when
`wikipedia.summary(q, sentences=3)` returns `s` and `none` when it raises. -/
def cmd_wiki (args : String) (wiki : Option String) : List Action × List Effect :=
  if args = "" then ([.replyText "Usage: /wiki <topic>"], [])
  else match wiki with
    | some s => ([.replyText s], [.wikiCall args])
    | none => ([.replyText "❌ Couldn\x27t find on Wikipedia."], [.wikiCall args])

/-- Outcome of the OpenWeather GET inside `cmd_weather`: either an exception
(network failure, JSON parse error, or a missing `main`/`weather` field while
formatting) or a parsed body with its `cod` status and the fields the
handler reads. -/
inductive WeatherResp where
  | exc (e : String)
  | api (cod : Int) (temp humidity descr : String)
  deriving DecidableEq

/-- `cmd_weather` from `src/main.py`: usage hint on empty city, configuration
failure when `OPENWEATHER_API_KEY` is unset, `"City not found."` when the API
body's `cod` is not 200, a formatted report otherwise, and a catch-all fetch
error for exceptions. -/
def cmd_weather (city : String) (hasKey : Bool) (w : WeatherResp) :
    List Action × List Effect :=
  if city = "" then ([.replyText "Usage: /weather <city>"], [])
  else if hasKey = false then ([.replyText "Weather API key not configured."], [])
  else match w with
    | .exc _ => ([.replyText "Weather fetch error."], [.weatherCall city])
    | .api cod temp humidity descr =>
      if cod ≠ 200 then ([.replyText "City not found."], [.weatherCall city])
      else ([.replyText ("🌤 Weather in " ++ city ++ ":\n🌡 " ++ temp ++
               "°C\n💧 Humidity: " ++ humidity ++ "%\n" ++ descr)],
            [.weatherCall city])

/-- `generate_image_url` from `src/main.py`: pure URL construction. -/
def generate_image_url (prompt : String) : String :=
  "https://image.pollinations.ai/prompt/" ++ quote_plus prompt

/-- `generate_meme_url` from `src/main.py`: pure URL construction. -/
def generate_meme_url (text : String) : String :=
  let safe := String.mk (text.toList.map fun c => if c = ' ' then '_' else c)
  "https://api.memegen.link/images/custom/_/" ++ safe ++
    ".png?background=https://i.imgur.com/8KcYpGf.png"

/-- `cmd_image` from `src/main.py`; the URL builder is pure string
construction, so no external effect is recorded. -/
def cmd_image (args : String) : List Action × List Effect :=
  if args = "" then ([.replyText "Usage: /image <prompt>"], [])
  else ([.replyPhoto (generate_image_url args) ("Image for: " ++ args)], [])

/-- `cmd_meme` from `src/main.py`. -/
def cmd_meme (args : String) : List Action × List Effect :=
  if args = "" then ([.replyText "Usage: /meme <text>"], [])
  else ([.replyPhoto (generate_meme_url args) "Here is your meme"], [])

/-- `cmd_speak` from `src/main.py`; the oracle is the `Option` path returned
by `text_to_speech_file` (gTTS render, `none` on failure). -/
def cmd_speak (args : String) (tts : Option String) : List Action × List Effect :=
  if args = "" then ([.replyText "Usage: /speak <text>"], [])
  else match tts with
    | some path => ([.replyAudio path], [.ttsCall args])
    | none => ([.replyText "TTS failed.", ], [.ttsCall args])

/-- `cmd_joke` from `src/main.py`; `choice` models `random.choice` over the
two hard-coded jokes. -/
def cmd_joke (choice : Bool) : List Action × List Effect :=
  ([.replyText (if choice
      then "Why did the programmer quit his job? Because he didn\x27t get arrays."
      else "I told my computer I needed a break, and it said \x27No problem — I\x27ll go to sleep.\x27")],
   [])

/-- `cmd_notes` from `src/main.py`: dispatch on the argument via
`startswith`, returning the actions, the note-store mutations performed, and
the notes map as rewritten by `save_notes` (unchanged when no mutation ran). -/
def cmd_notes (args user : String) (notes : NotesMap) :
    List Action × List Effect × NotesMap :=
  if pyStartsWith args "save " then
    let text := String.mk (args.toList.drop 5)
    ([.replyText "✅ Note saved."], [.noteWrite user],
     setNotes notes user (lookupNotes notes user ++ [text]))
  else if pyStartsWith args "show" then
    let items := lookupNotes notes user
    if items = [] then ([.replyText "No notes saved."], [], notes)
    else ([.replyText ("Your notes:\n" ++ String.intercalate "\n" (numberedLines items))],
          [], notes)
  else if pyStartsWith args "clear" then
    ([.replyText "Notes cleared."], [.noteWrite user], setNotes notes user [])
  else ([.replyText "Usage: /notes save <text> | /notes show | /notes clear"], [], notes)

/-- `cmd_pdf` from `src/main.py`; the oracle is the `Option` path returned by
`make_pdf_from_text` (FPDF render, `none` on failure). -/
def cmd_pdf (args : String) (pdf : Option String) : List Action × List Effect :=
  if args = "" then ([.replyText "Usage: /pdf <text to convert to pdf>"], [])
  else match pdf with
    | some path => ([.replyDocument path], [.pdfCall args])
    | none => ([.replyText "PDF creation failed."], [.pdfCall args])

/-- `handle_photo` from `src/main.py`: the photo is saved under a fresh
timestamped filename and the user is told how to reference it; `ok = false`
models a download/save exception. -/
def handle_photo (ok : Bool) (fname : String) : List Action × List Effect :=
  if ok then
    ([.replyText ("Image received and saved. To ask about this image, type:\nimg:" ++
        fname ++ " <your question>\n(example: img:" ++ fname ++ " What is in this picture?)")],
     [])
  else ([.replyText "Failed to save image."], [])

/-- The oracle environment of one Telegram dispatch: the configured
`RAILWAY_BASE_URL`, whether `OPENWEATHER_API_KEY` is set, and the external
responses each capability client would observe. -/
structure Env where
  railway : String
  hasWeatherKey : Bool
  ai : HttpResult
  wiki : Option String
  weather : WeatherResp
  tts : Option String
  pdf : Option String
  joke : Bool

/-- A fully determined environment from the two fields the free-text handlers
actually read. -/
def mkEnv (railway : String) (ai : HttpResult) : Env :=
  ⟨railway, false, ai, none, WeatherResp.exc "", none, none, false⟩

/-- `handle_text` from `src/main.py` (the catch-all Telegram handler): strip
the text, no-op on `/`-prefixed text (commands are handled by earlier
filters), parse the `img:<filename> <question>` sentinel with
`split(maxsplit=1)`, and otherwise forward the text to the chat-completion
client. -/
def handle_text (raw : String) (env : Env) : List Action × List Effect :=
  let t := stripL raw.toList
  if startsWithL t ['/'] then ([], [])
  else if startsWithL t "img:".toList then
    let p := splitTok t
    let fname := String.mk (p.1.drop 4)
    let question := String.mk p.2
    if question = "" then
      ([.replyText "Please add your question after image filename."], [])
    else
      let image_url := if env.railway ≠ "" then
          make_public_file_url fname env.railway env.railway
        else "/files/" ++ fname
      let prompt := "User question about image: " ++ question ++ "\nImage URL: " ++
        image_url ++ "\nPlease describe and answer the question based on the image."
      ([.replyText "⏳ Analyzing the image and answering...",
        .replyText (call_openrouter_ai_sync env.ai)],
       [.aiCall prompt])
  else
    ([.replyText "⏳ Thinking...", .replyText (call_openrouter_ai_sync env.ai)],
     [.aiCall (String.mk t)])

/-- One inbound Telegram update: a text message, or a photo attachment whose
save attempt succeeded or failed. -/
inductive Inbound where
  | text (raw : String)
  | photo (ok : Bool) (fname : String)

/-- Attach the (unchanged) notes state to a handler result. -/
def withNotes (r : List Action × List Effect) (notes : NotesMap) :
    List Action × List Effect × NotesMap :=
  (r.1, r.2, notes)

/-- The command token of a `/`-prefixed message, as matched by aiogram's
command filter: the first space-separated token without its leading `/` and
without any `@botname` suffix. -/
def getCmd (raw : String) : String :=
  String.mk (((partitionSpace raw.toList).1.drop 1).takeWhile fun c => c ≠ '@')

/-- aiogram's `message.get_args()`: the text after the command token,
stripped of surrounding whitespace. -/
def getArgs (raw : String) : String :=
  pyStrip (String.mk (partitionSpace raw.toList).2)

/-- Dispatch of one inbound Telegram text, mirroring aiogram's registration
order in `src/main.py`: a `/`-prefixed text is matched against the command
filters, and any text matching no command filter falls through to
`handle_text` (which ignores `/`-prefixed text). -/
def routeText (raw user : String) (env : Env) (notes : NotesMap) :
    List Action × List Effect × NotesMap :=
  if startsWithL raw.toList ['/'] then
    if getCmd raw = "start" then withNotes cmd_start notes
    else if getCmd raw = "ai" then withNotes (cmd_ai (getArgs raw) env.ai) notes
    else if getCmd raw = "wiki" then withNotes (cmd_wiki (getArgs raw) env.wiki) notes
    else if getCmd raw = "weather" then
      withNotes (cmd_weather (getArgs raw) env.hasWeatherKey env.weather) notes
    else if getCmd raw = "image" then withNotes (cmd_image (getArgs raw)) notes
    else if getCmd raw = "meme" then withNotes (cmd_meme (getArgs raw)) notes
    else if getCmd raw = "speak" then withNotes (cmd_speak (getArgs raw) env.tts) notes
    else if getCmd raw = "joke" then withNotes (cmd_joke env.joke) notes
    else if getCmd raw = "notes" then cmd_notes (getArgs raw) user notes
    else if getCmd raw = "pdf" then withNotes (cmd_pdf (getArgs raw) env.pdf) notes
    else withNotes (handle_text raw env) notes
  else withNotes (handle_text raw env) notes

/-- The Telegram message router: classify one inbound update and run the
matching handler. -/
def route (msg : Inbound) (user : String) (env : Env) (notes : NotesMap) :
    List Action × List Effect × NotesMap :=
  match msg with
  | .text raw => routeText raw user env notes
  | .photo ok fname => withNotes (handle_photo ok fname) notes

-- ---------- Flask web front end ----------

/-- `webchat` from `src/main.py` (`POST /webchat`): returns the JSON `reply`
string and the effects performed; `body` is the `text` field of the request
JSON (`none` when absent), `host` is `request.host_url`. -/
def webchat (body : Option String) (host railway : String) (ai : HttpResult) :
    String × List Effect :=
  let text := pyStrip (body.getD "")
  if text = "" then ("Send some text.", [])
  else if pyStartsWith text "img:" then
    let p := splitTok text.toList
    let fname := String.mk (p.1.drop 4)
    let question := String.mk p.2
    if question = "" then ("Please include question after image filename.", [])
    else
      let image_url := make_public_file_url fname (rstripSlash host) railway
      let prompt := "User asks about image: " ++ question ++ "\nImage URL: " ++
        image_url ++ "\nDescribe and answer based on image."
      (call_openrouter_ai_sync ai, [.aiCall prompt])
  else (call_openrouter_ai_sync ai, [.aiCall text])

/-- The uploads directory `data/uploads`, modelled as a map from filename to
file bytes (newest write first, lookup takes the newest). -/
abbrev FileSys := List (String × List Nat)

/-- Write (or overwrite) one file. -/
def writeFile (fs : FileSys) (n : String) (content : List Nat) : FileSys :=
  (n, content) :: fs

/-- Read one file from the uploads directory. -/
def readFile : FileSys → String → Option (List Nat)
  | [], _ => none
  | (k, v) :: rest, n => if k = n then some v else readFile rest n

/-- The JSON body returned by `POST /upload`. -/
structure UploadResp where
  ok : Bool
  filename : String
  url : String

/-- `upload_file` from `src/main.py` (`POST /upload`): reject a request with
no `file` part, otherwise store the payload under
`f"{int(time.time())}_{f.filename}"` and return the filename with its public
URL. -/
def upload_file (fs : FileSys) (hasFile : Bool) (now : Nat) (origName : String)
    (content : List Nat) (host railway : String) : FileSys × UploadResp :=
  if hasFile = false then (fs, ⟨false, "", ""⟩)
  else
    let fname := toString now ++ "_" ++ origName
    (writeFile fs fname content,
     ⟨true, fname, make_public_file_url fname (rstripSlash host) railway⟩)

/-- `serve_file` from `src/main.py` (`GET /files/<filename>`):
`send_from_directory` of the uploads directory. -/
def serve_file (fs : FileSys) (filename : String) : Option (List Nat) :=
  readFile fs filename

/-- A concrete oracle environment for closed scenario runs: no
`RAILWAY_BASE_URL`, no weather key, and every external call failing. -/
def envC : Env :=
  ⟨"", false, HttpResult.failure "e", none, WeatherResp.exc "e", none, none, false⟩

-- ---------- Helper lemmas ----------

theorem toList_append (a b : String) : (a ++ b).toList = a.toList ++ b.toList := by
  cases a; cases b; rfl

theorem mk_toList (s : String) : String.mk s.toList = s := by
  cases s; rfl

theorem dropWhile_take1 (cs : List Char)
    (h : ∀ c ∈ cs.take 1, isPySpace c = false) :
    cs.dropWhile isPySpace = cs := by
  cases cs with
  | nil => rfl
  | cons c rest => simp [List.dropWhile_cons, h c (by simp)]

theorem stripL_take1 (cs : List Char)
    (h1 : ∀ c ∈ cs.take 1, isPySpace c = false)
    (h2 : ∀ c ∈ cs.reverse.take 1, isPySpace c = false) :
    stripL cs = cs := by
  unfold stripL
  rw [dropWhile_take1 cs h1, dropWhile_take1 cs.reverse h2, List.reverse_reverse]

theorem stripL_all (cs : List Char) (h : ∀ c ∈ cs, isPySpace c = false) :
    stripL cs = cs := by
  refine stripL_take1 cs (fun c hc => h c (List.take_subset 1 cs hc)) ?_
  intro c hc
  exact h c (List.mem_reverse.mp (List.take_subset 1 cs.reverse hc))

theorem startsWithL_nil (l : List Char) : startsWithL l [] = true := by
  cases l <;> rfl

theorem startsWithL_append (p l : List Char) : startsWithL (p ++ l) p = true := by
  induction p with
  | nil => exact startsWithL_nil l
  | cons c cs ih => simp [startsWithL, ih]

theorem splitTok_all (cs : List Char) (h : ∀ c ∈ cs, isPySpace c = false) :
    splitTok cs = (cs, []) := by
  induction cs with
  | nil => rfl
  | cons c rest ih =>
    have hc : isPySpace c = false := h c (by simp)
    simp [splitTok, hc, ih fun d hd => h d (by simp [hd])]

theorem splitTok_token (tok q : List Char)
    (ht : ∀ c ∈ tok, isPySpace c = false)
    (hq : ∀ c ∈ q.take 1, isPySpace c = false) :
    splitTok (tok ++ ' ' :: q) = (tok, q) := by
  induction tok with
  | nil =>
    simp only [List.nil_append, splitTok]
    simp [isPySpace, dropWhile_take1 q hq]
  | cons c rest ih =>
    have hc : isPySpace c = false := ht c (by simp)
    simp [splitTok, hc, ih fun d hd => ht d (by simp [hd])]

theorem lookup_update_self (m : NotesMap) (u : String) (v : List String)
    (h : hasUser m u = true) : lookupNotes (updateNotes m u v) u = v := by
  induction m with
  | nil => simp [hasUser] at h
  | cons p rest ih =>
    obtain ⟨k, vs⟩ := p
    by_cases hk : k = u
    · simp [updateNotes, hk, lookupNotes]
    · simp only [hasUser, if_neg hk] at h
      simp [updateNotes, hk, lookupNotes, ih h]

theorem lookup_append_self (m : NotesMap) (u : String) (v : List String)
    (h : hasUser m u = false) : lookupNotes (m ++ [(u, v)]) u = v := by
  induction m with
  | nil => simp [lookupNotes]
  | cons p rest ih =>
    obtain ⟨k, vs⟩ := p
    by_cases hk : k = u
    · simp [hasUser, hk] at h
    · simp only [hasUser, if_neg hk] at h
      simp [lookupNotes, hk, ih h]

theorem lookup_set_self (m : NotesMap) (u : String) (v : List String) :
    lookupNotes (setNotes m u v) u = v := by
  cases h : hasUser m u with
  | true => simp [setNotes, h, lookup_update_self m u v h]
  | false => simp [setNotes, h, lookup_append_self m u v h]

theorem lookup_update_other (m : NotesMap) (u : String) (v : List String)
    (w : String) (hw : w ≠ u) :
    lookupNotes (updateNotes m u v) w = lookupNotes m w := by
  induction m with
  | nil => rfl
  | cons p rest ih =>
    obtain ⟨k, vs⟩ := p
    by_cases hk : k = u
    · subst hk
      simp [updateNotes, lookupNotes, Ne.symm hw]
    · by_cases hkw : k = w <;> simp [updateNotes, lookupNotes, hk, hkw, hw, ih]

theorem lookup_append_other (m : NotesMap) (u : String) (v : List String)
    (w : String) (hw : w ≠ u) :
    lookupNotes (m ++ [(u, v)]) w = lookupNotes m w := by
  induction m with
  | nil => simp [lookupNotes, Ne.symm hw]
  | cons p rest ih =>
    obtain ⟨k, vs⟩ := p
    by_cases hkw : k = w <;> simp [lookupNotes, hkw, ih]

theorem lookup_set_other (m : NotesMap) (u : String) (v : List String)
    (w : String) (hw : w ≠ u) :
    lookupNotes (setNotes m u v) w = lookupNotes m w := by
  cases h : hasUser m u with
  | true => simp [setNotes, h, lookup_update_other m u v w hw]
  | false => simp [setNotes, h, lookup_append_other m u v w hw]

theorem save_args_drop (t : String) : ("save " ++ t : String).toList.drop 5 = t.toList := by
  rw [toList_append]; rfl

theorem cmd_notes_save (t u : String) (m : NotesMap) :
    cmd_notes ("save " ++ t) u m =
      ([Action.replyText "✅ Note saved."], [Effect.noteWrite u],
       setNotes m u (lookupNotes m u ++ [t])) := by
  have h : pyStartsWith ("save " ++ t) "save " = true := by
    unfold pyStartsWith
    rw [toList_append]
    exact startsWithL_append _ _
  simp only [cmd_notes, h, if_true]
  rw [save_args_drop, mk_toList]

theorem cmd_notes_show (u : String) (m : NotesMap) :
    cmd_notes "show" u m =
      (if lookupNotes m u = [] then ([Action.replyText "No notes saved."], [], m)
       else ([Action.replyText ("Your notes:\n" ++
          String.intercalate "\n" (numberedLines (lookupNotes m u)))], [], m)) := rfl

theorem cmd_notes_clear (u : String) (m : NotesMap) :
    cmd_notes "clear" u m =
      ([Action.replyText "Notes cleared."], [Effect.noteWrite u], setNotes m u []) := rfl

-- ---------- Claim theorems ----------

/-- C1: every argument-requiring command (/ai, /wiki, /weather, /image,
/meme, /speak, /pdf, /notes) invoked with an empty argument replies with
exactly that command's usage string and performs no external call — no HTTP
request, no capability-client invocation, and no note-file write. -/
theorem usage_reply_on_empty_argument (ai : HttpResult) (wiki : Option String)
    (k : Bool) (w : WeatherResp) (tts pdf : Option String) (u : String)
    (m : NotesMap) :
    cmd_ai "" ai = ([Action.replyText "Usage: /ai <your question>"], [])
    ∧ cmd_wiki "" wiki = ([Action.replyText "Usage: /wiki <topic>"], [])
    ∧ cmd_weather "" k w = ([Action.replyText "Usage: /weather <city>"], [])
    ∧ cmd_image "" = ([Action.replyText "Usage: /image <prompt>"], [])
    ∧ cmd_meme "" = ([Action.replyText "Usage: /meme <text>"], [])
    ∧ cmd_speak "" tts = ([Action.replyText "Usage: /speak <text>"], [])
    ∧ cmd_pdf "" pdf = ([Action.replyText "Usage: /pdf <text to convert to pdf>"], [])
    ∧ cmd_notes "" u m =
        ([Action.replyText "Usage: /notes save <text> | /notes show | /notes clear"], [], m) :=
  ⟨rfl, rfl, rfl, rfl, rfl, rfl, rfl, rfl⟩

/-- C3: a chat-completion call whose HTTP response succeeds with a parsable
body returns exactly the `content` field of the first choice's message,
stripped of surrounding whitespace. -/
theorem chat_reply_eq_trimmed_first_choice (c : ChatChoice) (cs : List ChatChoice) :
    call_openrouter_ai_sync (HttpResult.success (c :: cs)) =
      pyStrip c.message.content := rfl

/-- C8: the filename returned by the web upload endpoint, passed to the
file-serving endpoint, yields content byte-identical to the uploaded file. -/
theorem upload_then_serve_roundtrip (fs : FileSys) (now : Nat) (origName : String)
    (content : List Nat) (host railway : String) :
    serve_file (upload_file fs true now origName content host railway).1
      (upload_file fs true now origName content host railway).2.filename =
      some content := by
  simp [upload_file, serve_file, writeFile, readFile]

/-- C5: after user U saves a note, U's subsequent `/notes show` lists exactly
U's previous notes followed by the just-saved value, while `/notes show` for
any other user V replies exactly as it would have before U's save. -/
theorem notes_save_then_show (m : NotesMap) (u v t : String) (hv : v ≠ u) :
    (cmd_notes "show" u (cmd_notes ("save " ++ t) u m).2.2).1 =
      [Action.replyText ("Your notes:\n" ++
        String.intercalate "\n" (numberedLines (lookupNotes m u ++ [t])))]
    ∧ (cmd_notes "show" v (cmd_notes ("save " ++ t) u m).2.2).1 =
      (cmd_notes "show" v m).1 := by
  rw [cmd_notes_save]
  constructor
  · rw [cmd_notes_show, lookup_set_self]
    simp
  · rw [cmd_notes_show, cmd_notes_show, lookup_set_other m u _ v hv]
    split <;> rfl

/-- Witness for C5 at a concrete save followed by two shows. -/
theorem notes_save_then_show_witness :
    (cmd_notes "show" "1" (cmd_notes ("save " ++ "milk") "1" []).2.2).1 =
      [Action.replyText ("Your notes:\n" ++
        String.intercalate "\n" (numberedLines (lookupNotes [] "1" ++ ["milk"])))]
    ∧ (cmd_notes "show" "2" (cmd_notes ("save " ++ "milk") "1" []).2.2).1 =
      (cmd_notes "show" "2" []).1 :=
  notes_save_then_show [] "1" "2" "milk" (by decide)

/-- C10: each note-store mutation (`/notes save` and `/notes clear`) for user
U leaves the persisted entry of every other user exactly as it was in the map
loaded at the start of the mutation. -/
theorem notes_mutation_frame (m : NotesMap) (u v t : String) (hv : v ≠ u) :
    lookupNotes (cmd_notes ("save " ++ t) u m).2.2 v = lookupNotes m v
    ∧ lookupNotes (cmd_notes "clear" u m).2.2 v = lookupNotes m v := by
  constructor
  · rw [cmd_notes_save]
    exact lookup_set_other m u _ v hv
  · rw [cmd_notes_clear]
    exact lookup_set_other m u [] v hv

/-- Witness for C10 at a concrete two-user map. -/
theorem notes_mutation_frame_witness :
    lookupNotes (cmd_notes ("save " ++ "x") "1" [("2", ["keep"])]).2.2 "2" =
      lookupNotes [("2", ["keep"])] "2"
    ∧ lookupNotes (cmd_notes "clear" "1" [("2", ["keep"])]).2.2 "2" =
      lookupNotes [("2", ["keep"])] "2" :=
  notes_mutation_frame [("2", ["keep"])] "1" "2" "x" (by decide)

/-- C6: with a non-empty city, a missing weather credential yields the
configuration-failure reply with no lookup performed; a present credential
with an unrecognized city (API status other than 200) yields the
`City not found.` reply; the two failure replies are distinct; and in every
case the handler returns exactly one text reply (no exception escapes). -/
theorem weather_failure_modes (city : String) (hcity : city ≠ "") (w : WeatherResp) :
    cmd_weather city false w = ([Action.replyText "Weather API key not configured."], [])
    ∧ (∀ cod temp hum descr, cod ≠ 200 →
        cmd_weather city true (WeatherResp.api cod temp hum descr) =
          ([Action.replyText "City not found."], [Effect.weatherCall city]))
    ∧ ("Weather API key not configured." : String) ≠ "City not found."
    ∧ ∀ k, ∃ s, (cmd_weather city k w).1 = [Action.replyText s] := by
  refine ⟨by simp [cmd_weather, hcity], ?_, by decide, ?_⟩
  · intro cod temp hum descr hcod
    simp [cmd_weather, hcity, hcod]
  · intro k
    cases k with
    | false => exact ⟨"Weather API key not configured.", by simp [cmd_weather, hcity]⟩
    | true =>
      cases w with
      | exc e => exact ⟨"Weather fetch error.", by simp [cmd_weather, hcity]⟩
      | api cod temp hum descr =>
        by_cases hcod : cod = 200
        · exact ⟨"🌤 Weather in " ++ city ++ ":\n🌡 " ++ temp ++ "°C\n💧 Humidity: " ++
            hum ++ "%\n" ++ descr, by simp [cmd_weather, hcity, hcod]⟩
        · exact ⟨"City not found.", by simp [cmd_weather, hcity, hcod]⟩

/-- Witness for C6 at city `Paris`, a missing key, and a 404 body. -/
theorem weather_failure_modes_witness :
    cmd_weather "Paris" false (WeatherResp.exc "boom") =
      ([Action.replyText "Weather API key not configured."], [])
    ∧ cmd_weather "Paris" true (WeatherResp.api 404 "" "" "") =
      ([Action.replyText "City not found."], [Effect.weatherCall "Paris"]) := by
  have h := weather_failure_modes "Paris" (by decide) (WeatherResp.exc "boom")
  exact ⟨h.1, h.2.1 404 "" "" "" (by decide)⟩

theorem mk_nil : String.mk ([] : List Char) = "" := rfl

theorem toList_ne_nil (s : String) (h : s ≠ "") : s.toList ≠ [] := by
  intro hl
  exact h (by rw [← mk_toList s, hl, mk_nil])

theorem take1_append (X Y : List Char) (h : X ≠ []) : (X ++ Y).take 1 = X.take 1 := by
  cases X with
  | nil => exact absurd rfl h
  | cons a l => rfl

theorem img_chars (fname : String) (hf : ∀ c ∈ fname.toList, isPySpace c = false) :
    ∀ c ∈ "img:".toList ++ fname.toList, isPySpace c = false := by
  intro c hc
  rcases List.mem_append.mp hc with h | h
  · have h4 : c ∈ ['i', 'm', 'g', ':'] := h
    simp only [List.mem_cons, List.not_mem_nil, or_false] at h4
    rcases h4 with rfl | rfl | rfl | rfl <;> decide
  · exact hf c h

theorem handle_text_img_none (fname : String) (env : Env)
    (hf : ∀ c ∈ fname.toList, isPySpace c = false) :
    handle_text ("img:" ++ fname) env =
      ([Action.replyText "Please add your question after image filename."], []) := by
  have hall : ∀ c ∈ "img:".toList ++ fname.toList, isPySpace c = false := img_chars fname hf
  have hT : ("img:" ++ fname).toList = "img:".toList ++ fname.toList := toList_append _ _
  have hstrip : stripL (("img:" ++ fname).toList) = "img:".toList ++ fname.toList := by
    rw [hT]; exact stripL_all _ hall
  have hslash : startsWithL ("img:".toList ++ fname.toList) ['/'] = false := rfl
  have himg : startsWithL ("img:".toList ++ fname.toList) "img:".toList = true :=
    startsWithL_append _ _
  have hsplit : splitTok ("img:".toList ++ fname.toList) =
      ("img:".toList ++ fname.toList, []) := splitTok_all _ hall
  simp only [handle_text, hstrip, hslash, himg, hsplit]
  simp [mk_nil]

theorem webchat_img_none (fname host railway : String) (ai : HttpResult)
    (hf : ∀ c ∈ fname.toList, isPySpace c = false) :
    webchat (some ("img:" ++ fname)) host railway ai =
      ("Please include question after image filename.", []) := by
  have hall : ∀ c ∈ "img:".toList ++ fname.toList, isPySpace c = false := img_chars fname hf
  have hT : ("img:" ++ fname).toList = "img:".toList ++ fname.toList := toList_append _ _
  have hpy : pyStrip ("img:" ++ fname) = "img:" ++ fname := by
    unfold pyStrip
    rw [hT, stripL_all _ hall, ← hT, mk_toList]
  have hne : ("img:" ++ fname) ≠ "" := by
    intro h
    have hl := congrArg String.toList h
    have h0 : ("" : String).toList = [] := rfl
    rw [hT, h0] at hl
    exact absurd (List.append_eq_nil.mp hl).1 (by decide)
  have hsw : pyStartsWith ("img:" ++ fname) "img:" = true := by
    unfold pyStartsWith
    rw [hT]
    exact startsWithL_append _ _
  have hsplit : splitTok (("img:" ++ fname)).toList =
      ("img:".toList ++ fname.toList, []) := by
    rw [hT]; exact splitTok_all _ hall
  simp only [webchat, Option.getD_some, hpy, hsw, hsplit]
  simp [hne, mk_nil]

/-- C9: an `img:<filename>` message with no question text after the filename
makes both channels reply with a request to add the question and perform no
language-model call. -/
theorem img_without_question (fname railway host : String) (ai : HttpResult)
    (hf : ∀ c ∈ fname.toList, isPySpace c = false) :
    handle_text ("img:" ++ fname) (mkEnv railway ai) =
      ([Action.replyText "Please add your question after image filename."], [])
    ∧ webchat (some ("img:" ++ fname)) host railway ai =
      ("Please include question after image filename.", []) :=
  ⟨handle_text_img_none fname (mkEnv railway ai) hf,
   webchat_img_none fname host railway ai hf⟩

/-- Witness for C9 at the concrete filename `photo.jpg`. -/
theorem img_without_question_witness :
    handle_text ("img:" ++ "photo.jpg") (mkEnv "" (HttpResult.failure "e")) =
      ([Action.replyText "Please add your question after image filename."], [])
    ∧ webchat (some ("img:" ++ "photo.jpg")) "http://h/" "" (HttpResult.failure "e") =
      ("Please include question after image filename.", []) :=
  img_without_question "photo.jpg" "" "http://h/" (HttpResult.failure "e") (by decide)

theorem imgText_toList (fname question : String) :
    ("img:" ++ fname ++ " " ++ question).toList =
      ("img:".toList ++ fname.toList) ++ ' ' :: question.toList := by
  rw [toList_append, toList_append, toList_append]
  have hsp : (" " : String).toList = [' '] := rfl
  rw [hsp, List.append_assoc, List.singleton_append]

theorem imgText_strip (fname question : String)
    (hne : question ≠ "")
    (hq2 : ∀ c ∈ question.toList.reverse.take 1, isPySpace c = false) :
    stripL (("img:" ++ fname ++ " " ++ question).toList) =
      ("img:".toList ++ fname.toList) ++ ' ' :: question.toList := by
  rw [imgText_toList]
  refine stripL_take1 _ ?_ ?_
  · intro c hc
    have h1 : ((("img:".toList ++ fname.toList) ++ ' ' :: question.toList).take 1) = ['i'] := rfl
    rw [h1] at hc
    simp only [List.mem_singleton] at hc
    subst hc
    decide
  · intro c hc
    rw [List.reverse_append, List.reverse_cons] at hc
    rw [take1_append _ _ (by simp)] at hc
    rw [take1_append _ _
      (fun h => toList_ne_nil question hne (List.reverse_eq_nil_iff.mp h))] at hc
    exact hq2 c hc

theorem imgText_split (fname question : String)
    (hf : ∀ c ∈ fname.toList, isPySpace c = false)
    (hq1 : ∀ c ∈ question.toList.take 1, isPySpace c = false) :
    splitTok (("img:" ++ fname ++ " " ++ question).toList) =
      ("img:".toList ++ fname.toList, question.toList) := by
  rw [imgText_toList]
  exact splitTok_token _ _ (img_chars fname hf) hq1

theorem handle_text_img (fname question : String) (env : Env)
    (hf : ∀ c ∈ fname.toList, isPySpace c = false)
    (hne : question ≠ "")
    (hq1 : ∀ c ∈ question.toList.take 1, isPySpace c = false)
    (hq2 : ∀ c ∈ question.toList.reverse.take 1, isPySpace c = false) :
    handle_text ("img:" ++ fname ++ " " ++ question) env =
      ([Action.replyText "⏳ Analyzing the image and answering...",
        Action.replyText (call_openrouter_ai_sync env.ai)],
       [Effect.aiCall ("User question about image: " ++ question ++ "\nImage URL: " ++
          (if env.railway ≠ "" then make_public_file_url fname env.railway env.railway
           else "/files/" ++ fname) ++
          "\nPlease describe and answer the question based on the image.")]) := by
  have hstrip := imgText_strip fname question hne hq2
  have hsplit2 : splitTok (("img:".toList ++ fname.toList) ++ ' ' :: question.toList) =
      ("img:".toList ++ fname.toList, question.toList) :=
    splitTok_token _ _ (img_chars fname hf) hq1
  have hslash : startsWithL (("img:".toList ++ fname.toList) ++ ' ' :: question.toList)
      ['/'] = false := rfl
  have himg : startsWithL (("img:".toList ++ fname.toList) ++ ' ' :: question.toList)
      "img:".toList = true := by
    rw [List.append_assoc]
    exact startsWithL_append _ _
  have hdrop : ("img:".toList ++ fname.toList).drop 4 = fname.toList := rfl
  simp only [handle_text, hstrip, hslash, himg, hsplit2, hdrop, mk_toList,
    Bool.false_eq_true, if_false, eq_self_iff_true, if_true, if_neg hne]

theorem webchat_img (fname question host railway : String) (ai : HttpResult)
    (hf : ∀ c ∈ fname.toList, isPySpace c = false)
    (hne : question ≠ "")
    (hq1 : ∀ c ∈ question.toList.take 1, isPySpace c = false)
    (hq2 : ∀ c ∈ question.toList.reverse.take 1, isPySpace c = false) :
    webchat (some ("img:" ++ fname ++ " " ++ question)) host railway ai =
      (call_openrouter_ai_sync ai,
       [Effect.aiCall ("User asks about image: " ++ question ++ "\nImage URL: " ++
          make_public_file_url fname (rstripSlash host) railway ++
          "\nDescribe and answer based on image.")]) := by
  have hstrip := imgText_strip fname question hne hq2
  have hsplit2 : splitTok (("img:".toList ++ fname.toList) ++ ' ' :: question.toList) =
      ("img:".toList ++ fname.toList, question.toList) :=
    splitTok_token _ _ (img_chars fname hf) hq1
  have hT := imgText_toList fname question
  have hpy : pyStrip ("img:" ++ fname ++ " " ++ question) =
      "img:" ++ fname ++ " " ++ question := by
    unfold pyStrip
    rw [hstrip, ← hT, mk_toList]
  have htne : ("img:" ++ fname ++ " " ++ question) ≠ "" := by
    intro h
    have hl := congrArg String.toList h
    have h0 : ("" : String).toList = [] := rfl
    rw [hT, h0] at hl
    exact absurd (List.append_eq_nil.mp hl).2 (by simp)
  have hsw : pyStartsWith ("img:" ++ fname ++ " " ++ question) "img:" = true := by
    unfold pyStartsWith
    rw [hT, List.append_assoc]
    exact startsWithL_append _ _
  have hdrop : ("img:".toList ++ fname.toList).drop 4 = fname.toList := rfl
  simp only [webchat, Option.getD_some, hpy, hsw, hT, hsplit2, hdrop, mk_toList,
    eq_self_iff_true, if_true, if_neg htne, if_neg hne]

/-- C4: an `img:<filename> <question>` message with a non-empty question
makes the composed language-model prompt contain both the resolved public
asset URL and the verbatim question text, on the Telegram channel and on the
web channel alike. -/
theorem img_prompt_contains_url_and_question (fname question host railway : String)
    (env : Env) (ai : HttpResult)
    (hf : ∀ c ∈ fname.toList, isPySpace c = false)
    (hne : question ≠ "")
    (hq1 : ∀ c ∈ question.toList.take 1, isPySpace c = false)
    (hq2 : ∀ c ∈ question.toList.reverse.take 1, isPySpace c = false) :
    (∃ p, (handle_text ("img:" ++ fname ++ " " ++ question) env).2 = [Effect.aiCall p]
        ∧ strContains p (if env.railway ≠ "" then
            make_public_file_url fname env.railway env.railway else "/files/" ++ fname)
        ∧ strContains p question)
    ∧ (∃ p, (webchat (some ("img:" ++ fname ++ " " ++ question)) host railway ai).2 =
          [Effect.aiCall p]
        ∧ strContains p (make_public_file_url fname (rstripSlash host) railway)
        ∧ strContains p question) := by
  constructor
  · refine ⟨"User question about image: " ++ question ++ "\nImage URL: " ++
        (if env.railway ≠ "" then make_public_file_url fname env.railway env.railway
         else "/files/" ++ fname) ++
        "\nPlease describe and answer the question based on the image.", ?_, ?_, ?_⟩
    · rw [handle_text_img fname question env hf hne hq1 hq2]
    · exact ⟨("User question about image: " ++ question ++ "\nImage URL: ").toList,
        ("\nPlease describe and answer the question based on the image.").toList,
        by simp [toList_append, List.append_assoc]⟩
    · exact ⟨("User question about image: ").toList,
        ("\nImage URL: " ++
          (if env.railway ≠ "" then make_public_file_url fname env.railway env.railway
           else "/files/" ++ fname) ++
          "\nPlease describe and answer the question based on the image.").toList,
        by simp [toList_append, List.append_assoc]⟩
  · refine ⟨"User asks about image: " ++ question ++ "\nImage URL: " ++
        make_public_file_url fname (rstripSlash host) railway ++
        "\nDescribe and answer based on image.", ?_, ?_, ?_⟩
    · rw [webchat_img fname question host railway ai hf hne hq1 hq2]
    · exact ⟨("User asks about image: " ++ question ++ "\nImage URL: ").toList,
        ("\nDescribe and answer based on image.").toList,
        by simp [toList_append, List.append_assoc]⟩
    · exact ⟨("User asks about image: ").toList,
        ("\nImage URL: " ++ make_public_file_url fname (rstripSlash host) railway ++
          "\nDescribe and answer based on image.").toList,
        by simp [toList_append, List.append_assoc]⟩

/-- Witness for C4 at a concrete filename and question on both channels. -/
theorem img_prompt_contains_url_and_question_witness :
    (∃ p, (handle_text ("img:" ++ "photo.jpg" ++ " " ++ "What is this?")
            (mkEnv "https://base" (HttpResult.failure "e"))).2 = [Effect.aiCall p]
        ∧ strContains p (if (mkEnv "https://base" (HttpResult.failure "e")).railway ≠ "" then
            make_public_file_url "photo.jpg"
              (mkEnv "https://base" (HttpResult.failure "e")).railway
              (mkEnv "https://base" (HttpResult.failure "e")).railway
            else "/files/" ++ "photo.jpg")
        ∧ strContains p "What is this?")
    ∧ (∃ p, (webchat (some ("img:" ++ "photo.jpg" ++ " " ++ "What is this?"))
            "http://h/" "" (HttpResult.failure "e")).2 = [Effect.aiCall p]
        ∧ strContains p (make_public_file_url "photo.jpg" (rstripSlash "http://h/") "")
        ∧ strContains p "What is this?") :=
  img_prompt_contains_url_and_question "photo.jpg" "What is this?" "http://h/" ""
    (mkEnv "https://base" (HttpResult.failure "e")) (HttpResult.failure "e")
    (by decide) (by decide) (by decide) (by decide)

theorem cmd_start_bound : cmd_start.1.length ≤ 2 ∧ cmd_start.2.length ≤ 1 := by
  simp [cmd_start]

theorem cmd_ai_bound (args : String) (ai : HttpResult) :
    (cmd_ai args ai).1.length ≤ 2 ∧ (cmd_ai args ai).2.length ≤ 1 := by
  unfold cmd_ai
  split <;> simp

theorem cmd_wiki_bound (args : String) (wiki : Option String) :
    (cmd_wiki args wiki).1.length ≤ 2 ∧ (cmd_wiki args wiki).2.length ≤ 1 := by
  unfold cmd_wiki
  split
  · simp
  · cases wiki <;> simp

theorem cmd_weather_bound (city : String) (k : Bool) (w : WeatherResp) :
    (cmd_weather city k w).1.length ≤ 2 ∧ (cmd_weather city k w).2.length ≤ 1 := by
  cases w <;> simp only [cmd_weather] <;> split_ifs <;> simp

theorem cmd_image_bound (args : String) :
    (cmd_image args).1.length ≤ 2 ∧ (cmd_image args).2.length ≤ 1 := by
  unfold cmd_image
  split <;> simp

theorem cmd_meme_bound (args : String) :
    (cmd_meme args).1.length ≤ 2 ∧ (cmd_meme args).2.length ≤ 1 := by
  unfold cmd_meme
  split <;> simp

theorem cmd_speak_bound (args : String) (tts : Option String) :
    (cmd_speak args tts).1.length ≤ 2 ∧ (cmd_speak args tts).2.length ≤ 1 := by
  unfold cmd_speak
  split
  · simp
  · cases tts <;> simp

theorem cmd_joke_bound (choice : Bool) :
    (cmd_joke choice).1.length ≤ 2 ∧ (cmd_joke choice).2.length ≤ 1 := by
  simp [cmd_joke]

theorem cmd_notes_bound (args user : String) (m : NotesMap) :
    (cmd_notes args user m).1.length ≤ 2 ∧ (cmd_notes args user m).2.1.length ≤ 1 := by
  simp only [cmd_notes]
  split_ifs <;> simp

theorem cmd_pdf_bound (args : String) (pdf : Option String) :
    (cmd_pdf args pdf).1.length ≤ 2 ∧ (cmd_pdf args pdf).2.length ≤ 1 := by
  unfold cmd_pdf
  split
  · simp
  · cases pdf <;> simp

theorem handle_text_bound (raw : String) (env : Env) :
    (handle_text raw env).1.length ≤ 2 ∧ (handle_text raw env).2.length ≤ 1 := by
  simp only [handle_text]
  split_ifs <;> simp

theorem handle_photo_bound (ok : Bool) (fname : String) :
    (handle_photo ok fname).1.length ≤ 2 ∧ (handle_photo ok fname).2.length ≤ 1 := by
  unfold handle_photo
  split <;> simp

set_option maxHeartbeats 2000000 in
theorem routeText_bound (raw user : String) (env : Env) (m : NotesMap) :
    (routeText raw user env m).1.length ≤ 2 ∧ (routeText raw user env m).2.1.length ≤ 1 := by
  unfold routeText
  split_ifs
  all_goals
    first
      | exact cmd_start_bound
      | exact cmd_ai_bound _ _
      | exact cmd_wiki_bound _ _
      | exact cmd_weather_bound _ _ _
      | exact cmd_image_bound _
      | exact cmd_meme_bound _
      | exact cmd_speak_bound _ _
      | exact cmd_joke_bound _
      | exact cmd_notes_bound _ _ _
      | exact cmd_pdf_bound _ _
      | exact handle_text_bound _ _

/-- C2 amended: for every inbound message, the router produces at most two
outbound actions (a fixed progress notice may precede the final reply; a
no-op produces none) and performs at most one Capability Client call or Note
Store mutation. -/
theorem route_action_and_effect_bounds (msg : Inbound) (user : String) (env : Env)
    (m : NotesMap) :
    (route msg user env m).1.length ≤ 2 ∧ (route msg user env m).2.1.length ≤ 1 := by
  cases msg with
  | text raw => exact routeText_bound raw user env m
  | photo ok fname => exact handle_photo_bound ok fname

/-- C2 counterexample: `/ai hi` produces two outbound actions (the progress
notice and the answer), not exactly one. -/
theorem route_exactly_one_action_counterexample :
    (route (Inbound.text "/ai hi") "7" envC []).1.length = 2
    ∧ ¬ (route (Inbound.text "/ai hi") "7" envC []).1.length = 1 := by
  exact ⟨rfl, by decide⟩

/-- C7 counterexample: the code registers the command as `/notes` with a
`save`/`show`/`clear` subcommand, so the messages `/note todo buy milk` and
`/note` match no handler: the catch-all handler ignores `/`-prefixed text,
the router produces no reply at all, and in particular no final reply
listing `todo: buy milk`. -/
theorem note_scenario_counterexample :
    (route (Inbound.text "/note todo buy milk") "7" envC []).1 = []
    ∧ route (Inbound.text "/note") "7" envC
        ((route (Inbound.text "/note todo buy milk") "7" envC []).2.2) = ([], [], []) :=
  ⟨rfl, rfl⟩

/-- C7 amended: sending `/notes save todo: buy milk` and then `/notes show`
yields a confirmation for the save and a final reply whose listed line
`1. todo: buy milk` contains `todo: buy milk`. -/
theorem note_scenario_amended :
    (route (Inbound.text "/notes save todo: buy milk") "7" envC []).1 =
      [Action.replyText "✅ Note saved."]
    ∧ (route (Inbound.text "/notes show") "7" envC
        ((route (Inbound.text "/notes save todo: buy milk") "7" envC []).2.2)).1 =
      [Action.replyText "Your notes:\n1. todo: buy milk"]
    ∧ strContains "Your notes:\n1. todo: buy milk" "todo: buy milk" := by
  refine ⟨rfl, rfl, ⟨"Your notes:\n1. ".toList, [], ?_⟩⟩
  decide

end Bot
